import Mathlib

/-!
Shallow embedding of the CSV-to-SQL upload pipeline (repository `Upload-CSV`)
and proofs about it.

The embedding covers, faithfully to the Python source:
* `error_handler.py`: the `UploadStats` accumulator and the dead-letter queue
  entries produced by `DeadLetterQueue.add_row` / `add_dataframe`;
* `data_loader.py`: `DataLoader._execute_manual_insert` (row mode),
  `DataLoader._execute_pandas_to_sql` (bulk mode) and the chunked loop of
  `DataLoader.load_data`;
* `csv_analyzer.py`: the confidence threshold of `detect_encoding`, the
  frequency-count fallback of `detect_delimiter`, and the exception default of
  `detect_header`;
* `schema_generator.py`: `PANDAS_TO_SQL_TYPE_MAP`, `_infer_column_type`
  (including its regex pattern tests) and `_sanitize_name`.

External effects (the database driver, the random sub-sample, the statistical
encoding detector, the csv sniffer) are inputs of the embedded functions: the
Python code only branches on their results, never on their internals.
-/

namespace UploadCSV

/-! ## error_handler.py -/

/-- Embeds `error_handler.UploadStats`: the counters `total_rows`,
`successful_rows`, `failed_rows` and the length of the `errors` list.
Timestamps are not modelled. -/
structure UploadStats where
  total_rows : Nat
  successful_rows : Nat
  failed_rows : Nat
  error_count : Nat
deriving Repr, DecidableEq

/-- Fresh statistics object, as built by `UploadStats.__init__`. -/
def UploadStats.init : UploadStats := ⟨0, 0, 0, 0⟩

/-- Embeds `UploadStats.record_success`: adds `num_rows` to both
`successful_rows` and `total_rows`. -/
def UploadStats.record_success (s : UploadStats) (num_rows : Nat) : UploadStats :=
  { s with successful_rows := s.successful_rows + num_rows
           total_rows := s.total_rows + num_rows }

/-- Embeds `UploadStats.record_failure`: adds `num_rows` to both `failed_rows`
and `total_rows`, and appends one entry to `errors` when an exception object is
supplied (`has_error` stands for `error` being non-`None`). -/
def UploadStats.record_failure (s : UploadStats) (num_rows : Nat) (has_error : Bool) :
    UploadStats :=
  { s with failed_rows := s.failed_rows + num_rows
           total_rows := s.total_rows + num_rows
           error_count := s.error_count + (if has_error then 1 else 0) }

/-- One call made against an `UploadStats` object during a run. -/
inductive StatsEvent where
  | success (num_rows : Nat)
  | failure (num_rows : Nat) (has_error : Bool)
deriving Repr, DecidableEq

/-- Applies one recorded call to the statistics object. -/
def UploadStats.apply (s : UploadStats) : StatsEvent → UploadStats
  | .success n => s.record_success n
  | .failure n e => s.record_failure n e

/-- Replays a sequence of `record_success` and `record_failure` calls on a
fresh `UploadStats`. -/
def UploadStats.run (events : List StatsEvent) : UploadStats :=
  events.foldl UploadStats.apply UploadStats.init

end UploadCSV

namespace UploadCSV

/-! ## Dead-letter queue entries (`error_handler.DeadLetterQueue`) -/

/-- Embeds one row written to the dead-letter queue by
`DeadLetterQueue.add_row`: the error type, the error message, and the
`row_index` detail carried by the `CSVUploadError` when present (the
`details` dictionary of `data_loader` row errors). Row payloads and
timestamps are not needed by any claim and are not modelled. -/
structure DLQEntry where
  error_type : String
  error_message : String
  row_index : Option Nat
deriving Repr, DecidableEq

/-! ## data_loader.py -/

/-- One DataFrame row as seen by the loader, together with the outcome the
external SQL driver gives for its individual `INSERT` (`ok = true` means
`conn.execute` returns, `ok = false` means it raises with message `err`).
`idx` is the DataFrame index label of the row. -/
structure Row where
  idx : Nat
  ok : Bool
  err : String
deriving Repr, DecidableEq

/-- The dead-letter entry built for a failed row in
`DataLoader._execute_manual_insert`: a `CSVUploadError` with message
`"Lỗi khi nạp hàng {idx}: {e}"`, type `row_insert_error` and detail
`{"row_index": idx}`. -/
def rowErrorEntry (r : Row) : DLQEntry :=
  ⟨"row_insert_error", "Lỗi khi nạp hàng " ++ toString r.idx ++ ": " ++ r.err, some r.idx⟩

/-- The dead-letter entry built for each row of a batch whose bulk insert
failed: `_execute_pandas_to_sql` wraps the driver error `e` into a single
`CSVUploadError` with message `"Lỗi khi nạp dữ liệu: {e}"` and type
`bulk_insert_error`, and `DeadLetterQueue.add_dataframe` adds one entry per
row with that same error (no row index detail). -/
def bulkErrorEntry (driver_err : String) : DLQEntry :=
  ⟨"bulk_insert_error", "Lỗi khi nạp dữ liệu: " ++ driver_err, none⟩

/-- State threaded through the body of `_execute_manual_insert`: the loader's
statistics, its dead-letter queue, and the local `success_count`. -/
structure InsertState where
  stats : UploadStats
  dlq : List DLQEntry
  success_count : Nat
deriving Repr, DecidableEq

/-- One iteration of the row loop of `DataLoader._execute_manual_insert`:
on success increment `success_count` and `record_success(1)`; on failure
`record_failure(1, e)` and add the row to the dead-letter queue; in both
cases continue with the next row. -/
def insertRowStep (st : InsertState) (r : Row) : InsertState :=
  if r.ok then
    { st with success_count := st.success_count + 1
              stats := st.stats.record_success 1 }
  else
    { st with stats := st.stats.record_failure 1 true
              dlq := st.dlq ++ [rowErrorEntry r] }

/-- Result of `DataLoader._execute_manual_insert`: final state, whether the
transaction was committed, and the returned boolean. -/
structure ManualInsertResult where
  state : InsertState
  committed : Bool
  returned : Bool
deriving Repr, DecidableEq

/-- Embeds `DataLoader._execute_manual_insert`: iterate over the rows of the
DataFrame with `insertRowStep` starting from `success_count = 0`, commit the
transaction if `success_count > 0`, and return `success_count > 0`. -/
def execute_manual_insert (stats : UploadStats) (dlq : List DLQEntry)
    (df : List Row) : ManualInsertResult :=
  let final := df.foldl insertRowStep ⟨stats, dlq, 0⟩
  ⟨final, final.success_count > 0, final.success_count > 0⟩

/-- Result of `DataLoader._execute_pandas_to_sql`: updated statistics and
dead-letter queue, and the returned boolean. -/
structure BulkInsertResult where
  stats : UploadStats
  dlq : List DLQEntry
  returned : Bool
deriving Repr, DecidableEq

/-- Embeds `DataLoader._execute_pandas_to_sql`: `to_sql_ok` is the outcome of
the external `df.to_sql` call (all-or-nothing bulk insert). On success it
records `len(df)` successes and returns `True`; on failure it records
`len(df)` failures, adds every row of the DataFrame to the dead-letter queue
via `add_dataframe`, and returns `False`. No other path exists: in
particular the function never invokes `_execute_manual_insert`. -/
def execute_pandas_to_sql (stats : UploadStats) (dlq : List DLQEntry)
    (df : List Row) (to_sql_ok : Bool) (driver_err : String) : BulkInsertResult :=
  if to_sql_ok then
    ⟨stats.record_success df.length, dlq, true⟩
  else
    ⟨stats.record_failure df.length true,
     dlq ++ df.map (fun _ => bulkErrorEntry driver_err), false⟩

end UploadCSV

namespace UploadCSV

/-! ## The chunked loop of `DataLoader.load_data` -/

/-- One chunk read by `pd.read_csv(..., chunksize=...)`, together with the
outcome the external driver gives to a bulk `to_sql` on it. The per-row
outcomes (inside `rows`) are consulted only in row mode; the bulk outcome
(`bulk_ok`, `bulk_err`) only in bulk mode. -/
structure Batch where
  rows : List Row
  bulk_ok : Bool
  bulk_err : String
deriving Repr, DecidableEq

/-- Accumulator of the `for i, chunk_df in enumerate(chunks)` loop of
`DataLoader.load_data`: statistics, dead-letter queue, and the `success`
flag. -/
structure LoadState where
  stats : UploadStats
  dlq : List DLQEntry
  success : Bool
deriving Repr, DecidableEq

/-- One iteration of the chunk loop of `DataLoader.load_data`: process the
chunk with `_execute_manual_insert` or `_execute_pandas_to_sql` according to
`manual_insert`, and set `success` whenever the chunk call returned `True`. -/
def loadChunkStep (manual_insert : Bool) (st : LoadState) (b : Batch) : LoadState :=
  if manual_insert then
    let r := execute_manual_insert st.stats st.dlq b.rows
    ⟨r.state.stats, r.state.dlq, st.success || r.returned⟩
  else
    let r := execute_pandas_to_sql st.stats st.dlq b.rows b.bulk_ok b.bulk_err
    ⟨r.stats, r.dlq, st.success || r.returned⟩

/-- Embeds the `chunk_method == 'manual'` branch of `DataLoader.load_data`:
`success = False`, then for each chunk run the chosen insert strategy and
set `success = True` when the chunk succeeded; finally return `success`. -/
def load_data_chunks (manual_insert : Bool) (stats : UploadStats)
    (dlq : List DLQEntry) (batches : List Batch) : LoadState :=
  batches.foldl (loadChunkStep manual_insert) ⟨stats, dlq, false⟩

/-- Number of rows the external database actually keeps for one batch: in row
mode the individually committed rows, in bulk mode all of them or none
(`to_sql` is all-or-nothing). -/
def insertedRows (manual_insert : Bool) (b : Batch) : Nat :=
  if manual_insert then b.rows.countP (·.ok)
  else if b.bulk_ok then b.rows.length else 0

end UploadCSV

namespace UploadCSV

/-! ## csv_analyzer.py -/

/-- Embeds `CSVAnalyzer.detect_encoding` after the `chardet.detect` call:
`detected` and `confidence` are the fields of the detector's answer
(confidence modelled as a rational number). If the confidence is below 0.7
the safe default `utf-8` replaces the detector's guess, otherwise the guess
is kept. -/
def detect_encoding (detected : String) (confidence : ℚ) : String :=
  if confidence < 7/10 then "utf-8" else detected

/-- The candidate list `potential_delimiters = [',', ';', '\t', '|', ' ']`
of the fallback branch of `CSVAnalyzer.detect_delimiter`. -/
def potential_delimiters : List Char := [',', ';', '\t', '|', ' ']

/-- Number of occurrences of the candidate character in the sampled text,
as computed by `sample.count(d)`. -/
def delimiter_count (sample : String) (d : Char) : Nat :=
  sample.data.count d

/-- The dictionary `filtered_delimiters` of `CSVAnalyzer.detect_delimiter`:
each candidate paired with its occurrence count, keeping only candidates
that occur at least once and fewer than `len(sample) / 2` times. The Python
comparison `c < len(sample) / 2` over exact division is `2 * c < len`. -/
def filtered_delimiters (sample : String) : List (Char × Nat) :=
  (potential_delimiters.map (fun d => (d, delimiter_count sample d))).filter
    (fun p => 0 < p.2 && 2 * p.2 < sample.length)

/-- Python's `max(mapping, key=mapping.get)` over a non-empty association
list in insertion order: the first pair whose count is maximal. -/
def max_by_count : List (Char × Nat) → Option (Char × Nat)
  | [] => none
  | p :: ps => some (ps.foldl (fun best q => if best.2 < q.2 then q else best) p)

/-- Embeds the fallback branch of `CSVAnalyzer.detect_delimiter` (taken when
`csv.Sniffer.sniff` raises): count the occurrences of every potential
delimiter in the sample, filter them, return the most frequent remaining
candidate, and default to a comma when none remains. -/
def detect_delimiter_fallback (sample : String) : Char :=
  match max_by_count (filtered_delimiters sample) with
  | some p => p.1
  | none => ','

/-- Embeds `CSVAnalyzer.detect_header` as a function of the outcome of
`csv.Sniffer.has_header` on the sampled lines: `some b` means the sniffer
returned `b`, `none` means it raised an exception. The method returns the
pair `(has_header, header_row)`; on sniffer failure it assumes a header at
row 0. -/
def detect_header (sniffed : Option Bool) : Bool × Option Nat :=
  match sniffed with
  | some has_header => (has_header, if has_header then some 0 else none)
  | none => (true, some 0)

end UploadCSV

namespace UploadCSV

/-! ## schema_generator.py: the dtype map and the pattern tests

Python regular expressions over `str` use Unicode character classes. The
embedding models them exactly for the character ranges any claim exercises:
the digit class is modelled as the ASCII digits and the letter classes of the
email and phone patterns are the ASCII ranges written in the source patterns
themselves. -/

/-- The class attribute `SchemaGenerator.PANDAS_TO_SQL_TYPE_MAP`, in source
order. -/
def PANDAS_TO_SQL_TYPE_MAP : List (String × String) :=
  [("int64", "INT"),
   ("int32", "INT"),
   ("int16", "SMALLINT"),
   ("int8", "TINYINT"),
   ("uint64", "BIGINT UNSIGNED"),
   ("uint32", "INT UNSIGNED"),
   ("uint16", "SMALLINT UNSIGNED"),
   ("uint8", "TINYINT UNSIGNED"),
   ("float64", "DOUBLE"),
   ("float32", "FLOAT"),
   ("bool", "BOOLEAN"),
   ("datetime64[ns]", "DATETIME"),
   ("datetime64", "DATETIME"),
   ("object", "TEXT"),
   ("category", "VARCHAR(255)"),
   ("timedelta[ns]", "TIME"),
   ("timedelta", "TIME")]

/-- Dictionary lookup in `PANDAS_TO_SQL_TYPE_MAP`. -/
def pandasTypeLookup (dtype : String) : Option String :=
  (PANDAS_TO_SQL_TYPE_MAP.find? (fun p => p.1 = dtype)).map (·.2)

/-- Consumes exactly `n` digits from the front of the character list,
returning the remainder (the regex fragment `\d{n}`). -/
def consumeDigits : Nat → List Char → Option (List Char)
  | 0, cs => some cs
  | _ + 1, [] => none
  | n + 1, c :: cs => if c.isDigit then consumeDigits n cs else none

/-- Consumes one literal character from the front of the list. -/
def consumeLit (a : Char) : List Char → Option (List Char)
  | [] => none
  | c :: cs => if c = a then some cs else none

/-- Prefix match (Python `re.match`) of the pattern `\d{m} sep \d{n} sep \d{k}`
used by the date and time patterns of `SchemaGenerator`. -/
def matchThreeGroups (m : Nat) (sep : Char) (n : Nat) (k : Nat) (s : String) : Bool :=
  (do
    let r1 ← consumeDigits m s.data
    let r2 ← consumeLit sep r1
    let r3 ← consumeDigits n r2
    let r4 ← consumeLit sep r3
    consumeDigits k r4).isSome

/-- Prefix match of the pattern `\d{m} sep \d{n}` (the short time pattern). -/
def matchTwoGroups (m : Nat) (sep : Char) (n : Nat) (s : String) : Bool :=
  (do
    let r1 ← consumeDigits m s.data
    let r2 ← consumeLit sep r1
    consumeDigits n r2).isSome

/-- A value matches some pattern of `SchemaGenerator.DATE_PATTERNS`
(`re.match` against `\d{4}-\d{2}-\d{2}`, `\d{2}/\d{2}/\d{4}`,
`\d{2}-\d{2}-\d{4}` or `\d{2}\.\d{2}\.\d{4}`). -/
def matchesAnyDate (s : String) : Bool :=
  matchThreeGroups 4 '-' 2 2 s || matchThreeGroups 2 '/' 2 4 s ||
  matchThreeGroups 2 '-' 2 4 s || matchThreeGroups 2 '.' 2 4 s

/-- A value matches some pattern of `SchemaGenerator.TIME_PATTERNS`
(`re.match` against `\d{2}:\d{2}:\d{2}` or `\d{2}:\d{2}`). -/
def matchesAnyTime (s : String) : Bool :=
  matchThreeGroups 2 ':' 2 2 s || matchTwoGroups 2 ':' 2 s

/-- Character class `[a-zA-Z0-9._%+-]` of the local part of
`SchemaGenerator.EMAIL_PATTERN`. -/
def emailLocalChar (c : Char) : Bool :=
  c.isAlpha || c.isDigit || c = '.' || c = '_' || c = '%' || c = '+' || c = '-'

/-- Character class `[a-zA-Z0-9.-]` of the domain part of
`SchemaGenerator.EMAIL_PATTERN`. -/
def emailDomainChar (c : Char) : Bool :=
  c.isAlpha || c.isDigit || c = '.' || c = '-'

/-- Splits a list at the first occurrence of `a`, when there is one. -/
def splitAtFirst (a : Char) : List Char → Option (List Char × List Char)
  | [] => none
  | c :: cs =>
    if c = a then some ([], cs)
    else (splitAtFirst a cs).map (fun p => (c :: p.1, p.2))

/-- Splits a list at the last occurrence of `a`, when there is one. -/
def splitAtLast (a : Char) (cs : List Char) : Option (List Char × List Char) :=
  (splitAtFirst a cs.reverse).map (fun p => (p.2.reverse, p.1.reverse))

/-- Full match of `SchemaGenerator.EMAIL_PATTERN`
(`^[a-zA-Z0-9._%+-]+@[a-zA-Z0-9.-]+\.[a-zA-Z]{2,}$`). The `@` consumed by
the pattern is necessarily the first non-local-class character, and the dot
before the top-level domain is necessarily the last dot after the `@`,
because the domain tail `[a-zA-Z]{2,}` can contain neither. -/
def matchesEmail (s : String) : Bool :=
  match splitAtFirst '@' s.data with
  | none => false
  | some (localPart, rest) =>
    !localPart.isEmpty && localPart.all emailLocalChar &&
    match splitAtLast '.' rest with
    | none => false
    | some (dom, tld) =>
      !dom.isEmpty && dom.all emailDomainChar && 2 ≤ tld.length && tld.all Char.isAlpha

/-- Character class `[\d\s\(\)-]` of `SchemaGenerator.PHONE_PATTERN`. -/
def phoneChar (c : Char) : Bool :=
  c.isDigit || c.isWhitespace || c = '(' || c = ')' || c = '-'

/-- Full match of `SchemaGenerator.PHONE_PATTERN`
(`^\+?[\d\s\(\)-]{7,20}$`): an optional leading plus sign followed by 7 to
20 characters of the phone class. -/
def matchesPhone (s : String) : Bool :=
  let cs := match s.data with
    | '+' :: rest => rest
    | cs => cs
  7 ≤ cs.length && cs.length ≤ 20 && cs.all phoneChar

/-- The value `series.dropna().astype(str).str.len().max()` of
`SchemaGenerator._infer_column_type`: the maximum string length over all
non-absent values of the column (`none` stands for `NaN`). The fold starts
at 0; the branch using it is only reached when the column has at least one
non-absent value. -/
def max_string_length (values : List (Option String)) : Nat :=
  ((values.filterMap id).map String.length).foldl Nat.max 0

/-- Embeds `SchemaGenerator._infer_column_type` for one column.

A column is a pandas Series modelled by its dtype string, its list of
values (`none` is `NaN`; object-column payloads are strings, which makes
the source's `isinstance(val, str)` check identically true here), and the
random sub-sample `series.dropna().sample(min(10, ...))` drawn by the
source, which is an input because it is randomized.

The source consults `PANDAS_TO_SQL_TYPE_MAP` before testing
`pandas_dtype == 'object'`; since the key `'object'` is in that map, the
whole object branch below is unreachable, exactly as in the source. The
`if val and not pd.isna(val)` filters of the pattern tests drop empty
strings (a non-empty Python string is truthy and `pd.isna` of a string is
false), and the one-element list wrapping of `date_matches`/`time_matches`
makes those two conditions plain conjunctions over the filtered sample
(true on an empty filtered sample), while the email and phone conditions
additionally require the filtered sample to be non-empty. -/
def infer_column_type (dtype : String) (values : List (Option String))
    (sample : List String) : String :=
  if values.all Option.isNone then "TEXT"
  else
    match pandasTypeLookup dtype with
    | some t => t
    | none =>
      if dtype = "object" then
        if sample.isEmpty then "TEXT"
        else
          let filtered := sample.filter (fun v => v ≠ "")
          if filtered.all matchesAnyDate then "DATE"
          else if filtered.all matchesAnyTime then "TIME"
          else if !filtered.isEmpty && filtered.all matchesEmail then "VARCHAR(100)"
          else if !filtered.isEmpty && filtered.all matchesPhone then "VARCHAR(20)"
          else
            let max_length := max_string_length values
            if max_length ≤ 10 then "VARCHAR(10)"
            else if max_length ≤ 50 then "VARCHAR(50)"
            else if max_length ≤ 100 then "VARCHAR(100)"
            else if max_length ≤ 255 then "VARCHAR(255)"
            else if max_length ≤ 1000 then "TEXT"
            else "LONGTEXT"
      else "TEXT"

end UploadCSV

namespace UploadCSV

/-! ## schema_generator.py: identifier sanitization

Python's `\w` over `str` matches the Unicode word characters: the
alphanumerics in the sense of `str.isalnum` plus the underscore, which is
strictly larger than `[A-Za-z0-9_]`. The predicate below reproduces it
exactly for every code point up to U+017F (ASCII, Latin-1 Supplement and
Latin Extended-A): in that range the word characters are the ASCII
alphanumerics and underscore, the letters U+00C0 to U+017F minus the
multiplication and division signs, and the nine Latin-1 numeric or letter
signs listed. Likewise `str.isdigit` is reproduced up to U+017F by the
ASCII digits plus the superscript digits. -/

/-- Python word-character predicate (the regex class `\w` over `str`),
exact for code points up to U+017F. -/
def isWordChar (c : Char) : Bool :=
  c.isAlphanum || c = '_' ||
  (0xC0 ≤ c.toNat && c.toNat ≤ 0x17F && !(c = '×' || c = '÷')) ||
  ['ª', 'µ', 'º', '¹', '²', '³', '¼', '½', '¾'].contains c

/-- Python `str.isdigit` on one character, exact for code points up to
U+017F. -/
def isPyDigit (c : Char) : Bool :=
  c.isDigit || ['¹', '²', '³'].contains c

/-- The substitution `re.sub(r'[^\w]', '_', name)`: every character that is
not a word character becomes an underscore. -/
def replaceNonWord (cs : List Char) : List Char :=
  cs.map (fun c => if isWordChar c then c else '_')

/-- The substitution `re.sub(r'_+', '_', ...)`: every maximal run of
underscores becomes a single underscore. Written by skipping the rest of a
run after its first underscore. -/
def collapseUnderscores (cs : List Char) : List Char :=
  match cs with
  | [] => []
  | c :: rest =>
    if c = '_' then '_' :: collapseUnderscores (rest.dropWhile (· = '_'))
    else c :: collapseUnderscores rest
termination_by cs.length
decreasing_by
  · simp only [List.length_cons]
    refine Nat.lt_succ_of_le ?_
    induction cs with
    | nil => simp [List.dropWhile]
    | cons a l ih =>
      rw [List.dropWhile_cons]
      by_cases h : a = '_'
      · simp only [h, decide_True, ite_true, List.length_cons]
        exact Nat.le_trans ih (Nat.le_succ _)
      · simp [h]
  · simp

/-- Embeds `SchemaGenerator._sanitize_name`: replace non-word characters by
underscores, collapse repeated underscores, and prepend `col_` when the
result is non-empty and starts with a digit in the sense of
`str.isdigit`. -/
def sanitize_name (name : String) : String :=
  let sanitized := collapseUnderscores (replaceNonWord name.data)
  match sanitized with
  | [] => ""
  | c :: _ => if isPyDigit c then "col_" ++ String.mk sanitized else String.mk sanitized

/-- Underscore-run collapsing written the way the specification describes
it, by dropping every underscore that is immediately followed by another
(keeping the last underscore of each run); used to state claims about
`sanitize_name` without restating its recursion. -/
def collapseRunsSpec : List Char → List Char
  | [] => []
  | c :: rest =>
    if c = '_' ∧ rest.head? = some '_' then collapseRunsSpec rest
    else c :: collapseRunsSpec rest

/-- Sanitization exactly as the claim words it: replace every character
outside `[A-Za-z0-9_]` (the ASCII word characters) by an underscore,
collapse repeated underscores, and prefix with `col_` when the result
starts with a digit. -/
def sanitizeClaimAscii (name : String) : String :=
  let collapsed := collapseRunsSpec
    (name.data.map (fun c => if c.isAlphanum || c = '_' then c else '_'))
  match collapsed with
  | [] => ""
  | c :: _ => if c.isDigit then "col_" ++ String.mk collapsed else String.mk collapsed

/-- Sanitization as the claim must be amended: the replaced class is the
Python word-character class (Unicode-aware), the digit test is Python's
`str.isdigit`; otherwise identical to the claim's wording. -/
def sanitizeAmendedSpec (name : String) : String :=
  let collapsed := collapseRunsSpec (replaceNonWord name.data)
  match collapsed with
  | [] => ""
  | c :: _ => if isPyDigit c then "col_" ++ String.mk collapsed else String.mk collapsed

end UploadCSV

namespace UploadCSV

/-! ## Helper lemmas -/

lemma manual_insert_loop_spec (df : List Row) (st : InsertState) :
    (df.foldl insertRowStep st).success_count = st.success_count + df.countP (·.ok) ∧
    (df.foldl insertRowStep st).stats.successful_rows =
      st.stats.successful_rows + df.countP (·.ok) ∧
    (df.foldl insertRowStep st).stats.failed_rows =
      st.stats.failed_rows + df.countP (fun r => !r.ok) ∧
    (df.foldl insertRowStep st).stats.total_rows = st.stats.total_rows + df.length ∧
    (df.foldl insertRowStep st).dlq =
      st.dlq ++ (df.filter (fun r => !r.ok)).map rowErrorEntry := by
  induction df generalizing st with
  | nil => simp
  | cons r rest ih =>
    obtain ⟨h1, h2, h3, h4, h5⟩ := ih (insertRowStep st r)
    rw [List.foldl_cons]
    by_cases hr : r.ok = true
    · simp [insertRowStep, hr, UploadStats.record_success] at h1 h2 h3 h4 h5
      refine ⟨?_, ?_, ?_, ?_, ?_⟩ <;>
        simp [insertRowStep, hr, h1, h2, h3, h4, h5, List.countP_cons,
          List.filter_cons, UploadStats.record_success] <;>
        omega
    · rw [Bool.not_eq_true] at hr
      simp [insertRowStep, hr, UploadStats.record_failure] at h1 h2 h3 h4 h5
      refine ⟨?_, ?_, ?_, ?_, ?_⟩ <;>
        simp [insertRowStep, hr, h1, h2, h3, h4, h5, List.countP_cons,
          List.filter_cons, UploadStats.record_failure] <;>
        omega

lemma loadChunkStep_success_eq (manual : Bool) (st : LoadState) (b : Batch)
    (hb : b.rows ≠ []) :
    (loadChunkStep manual st b).success =
      (st.success || decide (0 < insertedRows manual b)) := by
  by_cases hm : manual = true
  · have h := (manual_insert_loop_spec b.rows ⟨st.stats, st.dlq, 0⟩).1
    simp only [hm, loadChunkStep, execute_manual_insert, insertedRows, if_true]
    rw [h]
    simp
  · rw [Bool.not_eq_true] at hm
    subst hm
    simp only [loadChunkStep, execute_pandas_to_sql, insertedRows,
      Bool.false_eq_true, if_false]
    by_cases hk : b.bulk_ok = true
    · simp [hk, List.length_pos, hb]
    · rw [Bool.not_eq_true] at hk
      simp [hk]

lemma load_chunks_foldl_success (manual : Bool) (batches : List Batch)
    (st : LoadState) (h : ∀ b ∈ batches, b.rows ≠ []) :
    (batches.foldl (loadChunkStep manual) st).success =
      (st.success || batches.any (fun b => decide (0 < insertedRows manual b))) := by
  induction batches generalizing st with
  | nil => simp
  | cons b rest ih =>
    rw [List.foldl_cons, ih _ (fun x hx => h x (List.mem_cons_of_mem b hx)),
      loadChunkStep_success_eq manual st b (h b (List.mem_cons_self b rest))]
    simp [Bool.or_assoc]

/-! ## Claims about the loading state machine -/

/-- C10: replaying any sequence of `record_success(n)` and
`record_failure(m, e)` calls on a fresh `UploadStats` leaves
`total_rows = successful_rows + failed_rows`, because each call adds its row
count both to its own counter and to the total. Since this holds for every
sequence, it holds after each call of a run. -/
theorem uploadStats_total_invariant :
    (∀ events : List StatsEvent,
      (UploadStats.run events).total_rows =
        (UploadStats.run events).successful_rows + (UploadStats.run events).failed_rows) ∧
    (∀ (s : UploadStats) (n : Nat),
      (s.record_success n).successful_rows = s.successful_rows + n ∧
      (s.record_success n).total_rows = s.total_rows + n) ∧
    (∀ (s : UploadStats) (n : Nat) (e : Bool),
      (s.record_failure n e).failed_rows = s.failed_rows + n ∧
      (s.record_failure n e).total_rows = s.total_rows + n) := by
  refine ⟨?_, fun s n => ⟨rfl, rfl⟩, fun s n e => ⟨rfl, rfl⟩⟩
  have key : ∀ (events : List StatsEvent) (s : UploadStats),
      s.total_rows = s.successful_rows + s.failed_rows →
      (events.foldl UploadStats.apply s).total_rows =
        (events.foldl UploadStats.apply s).successful_rows +
          (events.foldl UploadStats.apply s).failed_rows := by
    intro events
    induction events with
    | nil => intro s hs; simpa using hs
    | cons e rest ih =>
      intro s hs
      rw [List.foldl_cons]
      refine ih _ ?_
      cases e with
      | success n =>
        simp only [UploadStats.apply, UploadStats.record_success]
        omega
      | failure n he =>
        simp only [UploadStats.apply, UploadStats.record_failure]
        omega
  intro events
  exact key events UploadStats.init rfl

/-- C2: in row mode, `_execute_manual_insert` processes every row of the
batch: each successful row adds 1 to `successful_rows`, each failed row adds
1 to `failed_rows` and appends a `FailedRecord` carrying the error type
`row_insert_error` and the row index to the dead-letter queue, and the loop
never aborts (the counters account for the whole batch). The transaction is
committed exactly when at least one row succeeded, and the call returns true
exactly when at least one row succeeded. -/
theorem execute_manual_insert_spec (stats : UploadStats) (dlq : List DLQEntry)
    (df : List Row) :
    (execute_manual_insert stats dlq df).state.success_count = df.countP (·.ok) ∧
    (execute_manual_insert stats dlq df).state.stats.successful_rows =
      stats.successful_rows + df.countP (·.ok) ∧
    (execute_manual_insert stats dlq df).state.stats.failed_rows =
      stats.failed_rows + df.countP (fun r => !r.ok) ∧
    (execute_manual_insert stats dlq df).state.stats.total_rows =
      stats.total_rows + df.length ∧
    (execute_manual_insert stats dlq df).state.dlq =
      dlq ++ (df.filter (fun r => !r.ok)).map rowErrorEntry ∧
    ((execute_manual_insert stats dlq df).committed = true ↔ 0 < df.countP (·.ok)) ∧
    ((execute_manual_insert stats dlq df).returned = true ↔ 0 < df.countP (·.ok)) := by
  obtain ⟨h1, h2, h3, h4, h5⟩ := manual_insert_loop_spec df ⟨stats, dlq, 0⟩
  simp only [execute_manual_insert]
  refine ⟨?_, ?_, ?_, ?_, ?_, ?_, ?_⟩
  · simpa using h1
  · simpa using h2
  · simpa using h3
  · simpa using h4
  · simpa using h5
  · rw [h1]; simp
  · rw [h1]; simp

/-- C3: a chunked whole-file load is reported successful if and only if at
least one batch contributed at least one successfully inserted row, and it
is reported failed exactly when every batch failed entirely. The hypothesis
that batches are non-empty reflects that `pd.read_csv` never yields an
empty chunk. -/
theorem load_data_chunks_success_iff (manual_insert : Bool) (stats : UploadStats)
    (dlq : List DLQEntry) (batches : List Batch)
    (h : ∀ b ∈ batches, b.rows ≠ []) :
    ((load_data_chunks manual_insert stats dlq batches).success = true ↔
      ∃ b ∈ batches, 0 < insertedRows manual_insert b) ∧
    ((load_data_chunks manual_insert stats dlq batches).success = false ↔
      ∀ b ∈ batches, insertedRows manual_insert b = 0) := by
  rw [load_data_chunks, load_chunks_foldl_success manual_insert batches _ h]
  refine ⟨by simp, ?_⟩
  simp [List.any_eq_false, Nat.pos_iff_ne_zero]

/-- Witness for C3 at a concrete one-batch input. -/
theorem load_data_chunks_success_iff_witness :
    (load_data_chunks true UploadStats.init [] [⟨[⟨0, true, ""⟩], true, ""⟩]).success = true := by
  have h := load_data_chunks_success_iff true UploadStats.init []
    [⟨[⟨0, true, ""⟩], true, ""⟩] (by decide)
  exact h.1.mpr ⟨⟨[⟨0, true, ""⟩], true, ""⟩, by decide, by decide⟩

/-- A batch of 100 rows in which exactly one row (index 99) would fail a
row-level insert, and whose bulk multi-row insert fails. -/
def c1Rows : List Row :=
  (List.range 99).map (fun i => ⟨i, true, ""⟩) ++ [⟨99, false, "incompatible type"⟩]

/-- The batch built from `c1Rows`, with a failing bulk insert. -/
def c1Batch : Batch := ⟨c1Rows, false, "bulk insert failed"⟩

/-- C1, counterexample: loading the 100-row batch `c1Batch` (99 good rows,
one bad row, failing bulk insert) in bulk mode yields 0 successful rows and
100 failed rows and the load is reported failed, not the 99 successes plus
1 failure the claim requires: `_execute_pandas_to_sql` never falls back to
row mode. The last two conjuncts show that running row mode on the same
batch would have produced the claimed 99 successes and 1 failure, so the
difference is exactly the missing fallback. -/
theorem bulk_failure_no_fallback_counterexample :
    (load_data_chunks false UploadStats.init [] [c1Batch]).stats.successful_rows = 0 ∧
    (load_data_chunks false UploadStats.init [] [c1Batch]).stats.failed_rows = 100 ∧
    (load_data_chunks false UploadStats.init [] [c1Batch]).success = false ∧
    ¬ ((load_data_chunks false UploadStats.init [] [c1Batch]).stats.successful_rows = 99 ∧
       (load_data_chunks false UploadStats.init [] [c1Batch]).stats.failed_rows = 1) ∧
    (execute_manual_insert UploadStats.init [] c1Rows).state.stats.successful_rows = 99 ∧
    (execute_manual_insert UploadStats.init [] c1Rows).state.stats.failed_rows = 1 := by
  refine ⟨by decide, by decide, by decide, by decide, by decide, by decide⟩

/-- C1, amended: when the bulk multi-row insert of a batch fails,
`_execute_pandas_to_sql` does not fall back to row mode; instead all
`len(df)` rows of the batch are recorded as failed, each row is appended to
the dead-letter queue with error type `bulk_insert_error`, no success is
recorded, and the call returns false. -/
theorem execute_pandas_to_sql_failure_spec (stats : UploadStats) (dlq : List DLQEntry)
    (df : List Row) (driver_err : String) :
    (execute_pandas_to_sql stats dlq df false driver_err).returned = false ∧
    (execute_pandas_to_sql stats dlq df false driver_err).stats.successful_rows =
      stats.successful_rows ∧
    (execute_pandas_to_sql stats dlq df false driver_err).stats.failed_rows =
      stats.failed_rows + df.length ∧
    (execute_pandas_to_sql stats dlq df false driver_err).stats.total_rows =
      stats.total_rows + df.length ∧
    (execute_pandas_to_sql stats dlq df false driver_err).dlq =
      dlq ++ df.map (fun _ => bulkErrorEntry driver_err) := by
  refine ⟨rfl, rfl, rfl, rfl, rfl⟩

/-! ## Claims about csv_analyzer.py -/

/-- C4: encoding detection keeps the statistical detector's guess exactly
when its confidence is at least 0.7, and returns the safe default utf-8
whenever the confidence is below 0.7, regardless of the guess. -/
theorem detect_encoding_threshold (detected : String) (confidence : ℚ) :
    (7/10 ≤ confidence → detect_encoding detected confidence = detected) ∧
    (confidence < 7/10 → detect_encoding detected confidence = "utf-8") := by
  constructor
  · intro h
    simp [detect_encoding, not_lt.mpr h]
  · intro h
    simp [detect_encoding, h]

/-- Witness for C4 at confidence values on both sides of the threshold. -/
theorem detect_encoding_threshold_witness :
    detect_encoding "windows-1252" (9/10) = "windows-1252" ∧
    detect_encoding "windows-1252" (1/2) = "utf-8" :=
  ⟨(detect_encoding_threshold "windows-1252" (9/10)).1 (by norm_num),
   (detect_encoding_threshold "windows-1252" (1/2)).2 (by norm_num)⟩

/-- C6: whenever header sniffing raises an exception, `detect_header`
resolves to a header present at row 0; it never resolves the failure case
to "no header". -/
theorem detect_header_default_on_failure :
    detect_header none = (true, some 0) := rfl

/-- The running maximum of `max_by_count` is one of the candidates. -/
lemma foldl_max_mem (p : Char × Nat) (ps : List (Char × Nat)) :
    ps.foldl (fun best q => if best.2 < q.2 then q else best) p ∈ p :: ps := by
  induction ps generalizing p with
  | nil => simp
  | cons a l ih =>
    rw [List.foldl_cons]
    rcases List.mem_cons.mp (ih (if p.2 < a.2 then a else p)) with h' | h'
    · rw [h']
      by_cases hpa : p.2 < a.2 <;> simp [hpa]
    · exact List.mem_cons_of_mem _ (List.mem_cons_of_mem _ h')

/-- The running maximum of `max_by_count` dominates every candidate. -/
lemma foldl_max_le (p : Char × Nat) (ps : List (Char × Nat)) :
    ∀ q ∈ p :: ps, q.2 ≤ (ps.foldl (fun best q => if best.2 < q.2 then q else best) p).2 := by
  induction ps generalizing p with
  | nil =>
    intro q hq
    rw [List.mem_singleton.mp hq]
    simp
  | cons a l ih =>
    intro q hq
    rw [List.foldl_cons]
    have hstart : p.2 ≤ (if p.2 < a.2 then a else p).2 ∧
        a.2 ≤ (if p.2 < a.2 then a else p).2 := by
      by_cases hpa : p.2 < a.2 <;> simp [hpa] <;> omega
    have hrec := ih (if p.2 < a.2 then a else p)
    rcases List.mem_cons.mp hq with h' | h'
    · rw [h']
      exact le_trans hstart.1 (hrec _ (List.mem_cons_self _ _))
    · rcases List.mem_cons.mp h' with h'' | h''
      · rw [h'']
        exact le_trans hstart.2 (hrec _ (List.mem_cons_self _ _))
      · exact hrec q (List.mem_cons_of_mem _ h'')

/-- Every pair of the filtered dictionary carries the count of its own
candidate. -/
lemma filtered_delimiters_snd (sample : String) :
    ∀ p ∈ filtered_delimiters sample, p.2 = delimiter_count sample p.1 := by
  intro p hp
  rcases List.mem_map.mp (List.mem_filter.mp hp).1 with ⟨d, _, heq⟩
  rw [← heq]

/-- C5: the fallback branch of `detect_delimiter` keeps exactly the
candidates in `{',', ';', tab, '|', space}` whose occurrence count in the
sample is positive and below half the sample length; when candidates
remain it returns one of them whose count dominates all remaining
candidates, and when none remains it returns a comma. On consistent
semicolon-separated text with no commas it returns a semicolon. -/
theorem detect_delimiter_fallback_spec :
    (∀ (sample : String) (d : Char),
      (d, delimiter_count sample d) ∈ filtered_delimiters sample ↔
        d ∈ potential_delimiters ∧ 0 < delimiter_count sample d ∧
          2 * delimiter_count sample d < sample.length) ∧
    (∀ sample : String, filtered_delimiters sample = [] →
      detect_delimiter_fallback sample = ',') ∧
    (∀ sample : String, filtered_delimiters sample ≠ [] →
      detect_delimiter_fallback sample ∈ (filtered_delimiters sample).map Prod.fst ∧
      ∀ q ∈ filtered_delimiters sample,
        q.2 ≤ delimiter_count sample (detect_delimiter_fallback sample)) ∧
    detect_delimiter_fallback "a;b;c\nd;e;f" = ';' := by
  refine ⟨?_, ?_, ?_, by decide⟩
  · intro sample d
    constructor
    · intro hmem
      have h1 := (List.mem_filter.mp hmem).2
      rcases List.mem_map.mp (List.mem_filter.mp hmem).1 with ⟨d', hd', heq⟩
      have hdd : d' = d := congrArg Prod.fst heq
      simp only [Bool.and_eq_true, decide_eq_true_eq] at h1
      exact ⟨hdd ▸ hd', h1.1, h1.2⟩
    · rintro ⟨hd, h0, hl⟩
      refine List.mem_filter.mpr ⟨List.mem_map.mpr ⟨d, hd, rfl⟩, ?_⟩
      simp only [Bool.and_eq_true, decide_eq_true_eq]
      exact ⟨h0, hl⟩
  · intro sample h
    simp [detect_delimiter_fallback, h, max_by_count]
  · intro sample h
    obtain ⟨p, ps, hcons⟩ : ∃ p ps, filtered_delimiters sample = p :: ps := by
      cases hf : filtered_delimiters sample with
      | nil => exact absurd hf h
      | cons p ps => exact ⟨p, ps, rfl⟩
    have hres : detect_delimiter_fallback sample =
        (ps.foldl (fun best q => if best.2 < q.2 then q else best) p).1 := by
      simp [detect_delimiter_fallback, max_by_count, hcons]
    have hmem : ps.foldl (fun best q => if best.2 < q.2 then q else best) p ∈
        filtered_delimiters sample := by
      rw [hcons]
      exact foldl_max_mem p ps
    have hsnd := filtered_delimiters_snd sample _ hmem
    constructor
    · rw [hres]
      exact List.mem_map.mpr ⟨_, hmem, rfl⟩
    · intro q hq
      rw [hres, ← hsnd]
      refine foldl_max_le p ps q ?_
      rw [← hcons]
      exact hq

/-- Witness for C5: the comma default on delimiter-free text, a dominated
filtered dictionary on semicolon text, and the membership characterization
at a concrete sample. -/
theorem detect_delimiter_fallback_spec_witness :
    detect_delimiter_fallback "abc" = ',' ∧
    detect_delimiter_fallback "x;y" ∈ (filtered_delimiters "x;y").map Prod.fst ∧
    (';', delimiter_count "a;b" ';') ∈ filtered_delimiters "a;b" :=
  ⟨detect_delimiter_fallback_spec.2.1 "abc" (by decide),
   (detect_delimiter_fallback_spec.2.2.1 "x;y" (by decide)).1,
   (detect_delimiter_fallback_spec.1 "a;b" ';').mpr (by decide)⟩

/-! ## Claims about schema_generator.py -/

/-- C7, counterexample: a column whose native dtype is the 64-bit signed
integer dtype `int64` is mapped to `INT` (the Integer kind), not to
`BIGINT` as the claim states. -/
theorem int64_maps_to_int_counterexample :
    infer_column_type "int64" [some "1"] [] = "INT" ∧
    infer_column_type "int64" [some "1"] [] ≠ "BIGINT" := by
  exact ⟨by decide, by decide⟩

/-- C7, amended: for a column that is not entirely absent and whose native
storage dtype is a numeric/boolean/datetime kind, `_infer_column_type` maps
the dtype directly through `PANDAS_TO_SQL_TYPE_MAP`: 8-bit integers to
TINYINT, 16-bit to SMALLINT, and both 32-bit and 64-bit signed integers to
INT (not BIGINT); the unsigned widths map to the corresponding UNSIGNED
variants, with 64-bit unsigned the distinct BIGINT UNSIGNED case; float32
to FLOAT, float64 to DOUBLE, bool to BOOLEAN and datetime to DATETIME. -/
theorem dtype_direct_mapping (values : List (Option String)) (sample : List String)
    (h : values.all Option.isNone = false) :
    infer_column_type "int64" values sample = "INT" ∧
    infer_column_type "int32" values sample = "INT" ∧
    infer_column_type "int16" values sample = "SMALLINT" ∧
    infer_column_type "int8" values sample = "TINYINT" ∧
    infer_column_type "uint64" values sample = "BIGINT UNSIGNED" ∧
    infer_column_type "uint32" values sample = "INT UNSIGNED" ∧
    infer_column_type "uint16" values sample = "SMALLINT UNSIGNED" ∧
    infer_column_type "uint8" values sample = "TINYINT UNSIGNED" ∧
    infer_column_type "float64" values sample = "DOUBLE" ∧
    infer_column_type "float32" values sample = "FLOAT" ∧
    infer_column_type "bool" values sample = "BOOLEAN" ∧
    infer_column_type "datetime64[ns]" values sample = "DATETIME" := by
  have key : ∀ dtype t, pandasTypeLookup dtype = some t →
      infer_column_type dtype values sample = t := by
    intro dtype t hd
    simp [infer_column_type, h, hd]
  exact ⟨key _ _ (by decide), key _ _ (by decide), key _ _ (by decide),
    key _ _ (by decide), key _ _ (by decide), key _ _ (by decide),
    key _ _ (by decide), key _ _ (by decide), key _ _ (by decide),
    key _ _ (by decide), key _ _ (by decide), key _ _ (by decide)⟩

/-- Witness for C7 on a concrete one-value column. -/
theorem dtype_direct_mapping_witness :
    infer_column_type "uint64" [some "1"] [] = "BIGINT UNSIGNED" :=
  (dtype_direct_mapping [some "1"] [] (by decide)).2.2.2.2.1

/-- C9, code bug: the `VARCHAR` bucketing by maximum string length is dead
code. A textual column (dtype `object`) whose single value has length 12
matches no structured pattern, so the claim requires `VARCHAR(50)`; but
`_infer_column_type` consults `PANDAS_TO_SQL_TYPE_MAP` before testing
`pandas_dtype == 'object'`, the map contains the key `object`, and so the
function returns `TEXT` for every object column, never reaching the
bucketing branch. -/
theorem object_column_dead_branch :
    pandasTypeLookup "object" = some "TEXT" ∧
    infer_column_type "object" [some "abcdefghijkl"] ["abcdefghijkl"] = "TEXT" ∧
    max_string_length [some "abcdefghijkl"] = 12 ∧
    infer_column_type "object" [some "abcdefghijkl"] ["abcdefghijkl"] ≠ "VARCHAR(50)" := by
  exact ⟨by decide, by decide, by decide, by decide⟩

/-- Unfolding lemma for `collapseUnderscores`, which is defined by
well-founded recursion and does not reduce definitionally. -/
lemma collapseUnderscores_cons (c : Char) (rest : List Char) :
    collapseUnderscores (c :: rest) =
      if c = '_' then '_' :: collapseUnderscores (rest.dropWhile (· = '_'))
      else c :: collapseUnderscores rest := by
  conv_lhs => rw [collapseUnderscores]

/-- Skipping the rest of an underscore run after its first underscore and
dropping every underscore followed by another compute the same collapsed
list. -/
lemma collapseUnderscores_eq_collapseRunsSpec (cs : List Char) :
    collapseUnderscores cs = collapseRunsSpec cs := by
  induction cs with
  | nil => simp [collapseUnderscores, collapseRunsSpec]
  | cons c rest ih =>
    rw [collapseUnderscores_cons]
    by_cases hc : c = '_'
    · subst hc
      rw [if_pos rfl]
      cases rest with
      | nil => simp [collapseUnderscores, collapseRunsSpec, List.dropWhile]
      | cons a l =>
        by_cases ha : a = '_'
        · subst ha
          have hfold : collapseUnderscores ('_' :: l) =
              '_' :: collapseUnderscores (l.dropWhile (· = '_')) := by
            rw [collapseUnderscores_cons, if_pos rfl]
          have hdw : (('_' :: l) : List Char).dropWhile (· = '_') =
              l.dropWhile (· = '_') := by
            simp
          rw [hdw, ← hfold, ih]
          conv_rhs => rw [collapseRunsSpec]
          simp
        · have hdw : ((a :: l) : List Char).dropWhile (· = '_') = a :: l := by
            simp [ha]
          rw [hdw, ih]
          conv_rhs => rw [collapseRunsSpec]
          simp [ha]
    · rw [if_neg hc, ih]
      conv_rhs => rw [collapseRunsSpec]
      simp [hc]

/-- C8, counterexample: sanitization does not replace every character
outside `[A-Za-z0-9_]`. Python's `\w` is Unicode-aware, so the accented
letter in `café` is kept, while the claim as stated requires `caf_`. -/
theorem sanitize_name_unicode_counterexample :
    sanitize_name "café" = "café" ∧
    sanitizeClaimAscii "café" = "caf_" ∧
    sanitize_name "café" ≠ sanitizeClaimAscii "café" := by
  have h : sanitize_name "café" = "café" := by
    simp only [sanitize_name, collapseUnderscores_eq_collapseRunsSpec]
    decide
  refine ⟨h, by decide, ?_⟩
  rw [h]
  decide

/-- C8, amended: `_sanitize_name` replaces every character outside Python's
Unicode word class (which restricted to ASCII is `[A-Za-z0-9_]`) with an
underscore, collapses every run of consecutive underscores into a single
underscore, and prefixes the result with `col_` when it starts with a digit
in the sense of `str.isdigit`. -/
theorem sanitize_name_amended_spec (name : String) :
    sanitize_name name = sanitizeAmendedSpec name := by
  simp only [sanitize_name, sanitizeAmendedSpec, collapseUnderscores_eq_collapseRunsSpec]

end UploadCSV
